import Mathlib

/-!
Shallow embedding of the referral/reward settlement microservice.

The JavaScript source is embedded as follows: enum columns become inductive
types, table rows become structures, the persistent store becomes lists of
rows (newest row first, matching the ORDER BY created_at DESC reads), SQL
conditional updates (UPDATE ... WHERE id = ? AND status = ...) become
map-with-guard functions paired with an affected-rows flag, and the external
credit collaborator (section 6 of the design document gives its contract as
creditAccount returning a success boolean) is passed in as a boolean oracle
parameter.  Monetary DECIMAL(8,2) amounts are modelled as rationals and
DATETIME values as integers.
-/

namespace RefSvc

/-- Role enum shared by owner_type / user_type / referrer_type / referee_type
columns: ENUM of customer, driver, restaurant. -/
inductive Role
  | customer
  | driver
  | restaurant
deriving DecidableEq, Repr

/-- Bonus type enum: ENUM(cash, credit, percentage). -/
inductive BonusType
  | cash
  | credit
  | percentage
deriving DecidableEq, Repr

/-- Reward status enum: ENUM(pending, credited, expired, cancelled),
default pending (rewards table, src/models/Reward.js createTable). -/
inductive RewardStatus
  | pending
  | credited
  | expired
  | cancelled
deriving DecidableEq, Repr

/-- Referral status enum: ENUM(pending, completed, expired, cancelled),
default pending (referrals table, src/models/Referral.js createTable). -/
inductive ReferralStatus
  | pending
  | completed
  | expired
  | cancelled
deriving DecidableEq, Repr

/-- Reward type enum: ENUM(referral_bonus, milestone_bonus,
campaign_bonus, loyalty_bonus). -/
inductive RewardType
  | referral_bonus
  | milestone_bonus
  | campaign_bonus
  | loyalty_bonus
deriving DecidableEq, Repr

/-- Reward source type enum: ENUM(referral, campaign, milestone, manual). -/
inductive SourceType
  | referral
  | campaign
  | milestone
  | manual
deriving DecidableEq, Repr

/-- Completion condition enum: ENUM(first_order, first_delivery, registration). -/
inductive CompletionCondition
  | first_order
  | first_delivery
  | registration
deriving DecidableEq, Repr

/-- The free-form JSON metadata blob attached to a reward.  Only the
milestone key is ever read back by the engine (it is the dedup key of
RewardService.processMilestoneReward), so the blob is modelled as a record
carrying that single optional key; JSON stringify/parse round-trips are
modelled as the identity. -/
structure RewardMeta where
  milestone : Option Nat := none
deriving DecidableEq, Repr

/-- One row of the rewards table (src/models/Reward.js createTable). -/
structure Reward where
  id : Nat
  user_id : String
  user_type : Role
  reward_type : RewardType
  amount : Rat
  currency : String
  status : RewardStatus
  expiry_date : Int
  source_id : Option String
  source_type : SourceType
  description : Option String
  metadata : Option RewardMeta
deriving DecidableEq, Repr

/-- Input record of Reward.create (src/models/Reward.js). -/
structure RewardData where
  user_id : String
  user_type : Role
  reward_type : RewardType
  amount : Rat
  currency : Option String := none
  expiry_date : Option Int := none
  source_id : Option String := none
  source_type : SourceType
  description : Option String := none
  metadata : Option RewardMeta := none

/-- JavaScript value-or-default on a string: `v || d` is `d` when `v` is
absent or the empty string (both falsy). -/
def jsOrStr (v : Option String) (d : String) : String :=
  match v with
  | none => d
  | some s => if s = "" then d else s

/-- JavaScript value-or-default on a number: `v || d` is `d` when `v` is
absent or zero (both falsy). -/
def jsOrRat (v : Option Rat) (d : Rat) : Rat :=
  match v with
  | none => d
  | some q => if q = 0 then d else q

/-- Thirty days in milliseconds, the default reward expiry window of
Reward.create: new Date(Date.now() + 30 * 24 * 60 * 60 * 1000). -/
def thirtyDaysMs : Int := 30 * 24 * 60 * 60 * 1000

/-- Row built by Reward.create (src/models/Reward.js): currency defaults to
USD via `rewardData.currency || "USD"`, the status column is omitted from the
INSERT so the table default pending applies, expiry defaults to thirty days
from now, and metadata is stored as JSON.stringify(metadata || {}) so the
stored blob is always present.  The fresh id and the clock are parameters. -/
def Reward.createRow (now : Int) (newId : Nat) (d : RewardData) : Reward :=
  { id := newId
    user_id := d.user_id
    user_type := d.user_type
    reward_type := d.reward_type
    amount := d.amount
    currency := jsOrStr d.currency "USD"
    status := RewardStatus.pending
    expiry_date := d.expiry_date.getD (now + thirtyDaysMs)
    source_id := d.source_id
    source_type := d.source_type
    description := d.description
    metadata := some (d.metadata.getD {}) }

/-- Reward.findById: SELECT * FROM rewards WHERE id = ? (id is the primary
key; the first matching row is returned). -/
def Reward.findById (store : List Reward) (id : Nat) : Option Reward :=
  store.find? (fun r => r.id == id)

/-- Reward.findByUser: SELECT * FROM rewards WHERE user_id = ? (AND status = ?)
ORDER BY created_at DESC LIMIT ? OFFSET ?.  The store list is kept newest
first, matching the created_at DESC order. -/
def Reward.findByUser (store : List Reward) (userId : String) (status : Option RewardStatus)
    (limit offs : Nat) : List Reward :=
  (((store.filter (fun r =>
      r.user_id == userId &&
      match status with
      | none => true
      | some s => r.status == s)).drop offs).take limit)

/-- The conditional UPDATE of Reward.creditReward: SET status = credited
WHERE id = ? AND status = pending.  Returns the updated store and the
affected-rows flag. -/
def Reward.creditCAS (store : List Reward) (id : Nat) : List Reward × Bool :=
  (store.map (fun r =>
      if r.id == id && r.status == RewardStatus.pending
      then { r with status := RewardStatus.credited } else r),
   store.any (fun r => r.id == id && r.status == RewardStatus.pending))

/-- Reward.creditReward (src/models/Reward.js): runs the compare-and-set
update and returns the re-fetched row when a row was affected, null otherwise. -/
def Reward.creditReward (store : List Reward) (id : Nat) : List Reward × Option Reward :=
  let res := Reward.creditCAS store id
  (res.1, if res.2 then Reward.findById res.1 id else none)

/-- State threaded through the reward service: the rewards store, the next
fresh row id, a counter of calls made to the external credit collaborator,
and the clock. -/
structure SvcState where
  rewards : List Reward
  nextRewardId : Nat
  creditCalls : Nat
  now : Int
deriving Repr

/-- RewardService.creditReward (src/services/rewardsService.js lines 144-191).
Looks the reward up; returns null when absent; returns the reward unchanged
when its status is not pending; otherwise calls the external credit
collaborator (counted in creditCalls; its success flag is the oracle
parameter) and only on success performs the pending-to-credited
compare-and-set, returning the re-fetched credited row; on collaborator
failure it returns null and the store is untouched. -/
def RewardService.creditReward (externalSuccess : Bool) (s : SvcState) (rewardId : Nat) :
    SvcState × Option Reward :=
  match Reward.findById s.rewards rewardId with
  | none => (s, none)
  | some reward =>
    if reward.status = RewardStatus.pending then
      let s1 : SvcState := { s with creditCalls := s.creditCalls + 1 }
      if externalSuccess then
        let res := Reward.creditReward s1.rewards rewardId
        ({ s1 with rewards := res.1 }, res.2)
      else (s1, none)
    else (s, some reward)

/-- Repeated invocation of RewardService.creditReward on one reward id; the
list supplies the external collaborator outcome each invocation would see. -/
def RewardService.creditRewardN (outcomes : List Bool) (s : SvcState) (rewardId : Nat) : SvcState :=
  match outcomes with
  | [] => s
  | b :: bs => RewardService.creditRewardN bs (RewardService.creditReward b s rewardId).1 rewardId

/-- Status of the reward with the given id, as stored. -/
def rewardStatusOf (store : List Reward) (id : Nat) : Option RewardStatus :=
  (Reward.findById store id).map Reward.status

/-- One row of the referrals table (src/models/Referral.js createTable).
The minimum_order_amount column is nullable. -/
structure Referral where
  id : Nat
  referrer_id : String
  referee_id : String
  referrer_type : Role
  referee_type : Role
  referral_code : String
  status : ReferralStatus
  completion_condition : CompletionCondition
  completion_date : Option Int
  referrer_bonus : Rat
  referee_bonus : Rat
  referrer_bonus_type : BonusType
  referee_bonus_type : BonusType
  minimum_order_amount : Option Rat
  expiry_date : Int
  campaign_id : Option String
  completion_order_id : Option String
  completion_delivery_id : Option String
deriving DecidableEq, Repr

/-- Referral.findById: SELECT * FROM referrals WHERE id = ?. -/
def Referral.findById (store : List Referral) (id : Nat) : Option Referral :=
  store.find? (fun r => r.id == id)

/-- Referral.findByReferee: SELECT * FROM referrals WHERE referee_id = ?
ORDER BY created_at DESC (store order is newest first). -/
def Referral.findByReferee (store : List Referral) (refereeId : String) : List Referral :=
  store.filter (fun r => r.referee_id == refereeId)

/-- The conditional UPDATE of Referral.completeReferral: SET status =
completed, completion fields WHERE id = ? AND status = pending, with the
affected-rows flag. -/
def Referral.completeCAS (store : List Referral) (id : Nat)
    (orderId deliveryId : Option String) (now : Int) : List Referral × Bool :=
  (store.map (fun r =>
      if r.id == id && r.status == ReferralStatus.pending
      then { r with
              status := ReferralStatus.completed
              completion_date := some now
              completion_order_id := orderId
              completion_delivery_id := deliveryId }
      else r),
   store.any (fun r => r.id == id && r.status == ReferralStatus.pending))

/-- Referral.completeReferral (src/models/Referral.js): compare-and-set to
completed, returning the re-fetched row when a row was affected, null
otherwise. -/
def Referral.completeReferral (store : List Referral) (id : Nat)
    (orderId deliveryId : Option String) (now : Int) : List Referral × Option Referral :=
  let res := Referral.completeCAS store id orderId deliveryId now
  (res.1, if res.2 then Referral.findById res.1 id else none)

/-- Referral.updateStatus (src/models/Referral.js): UPDATE referrals SET
status = ? WHERE id = ? — an unconditional write, with no guard on the
current status. -/
def Referral.updateStatus (store : List Referral) (id : Nat) (st : ReferralStatus) :
    List Referral :=
  store.map (fun r => if r.id == id then { r with status := st } else r)

/-- Referral.getExpiredReferrals: SELECT * FROM referrals WHERE status =
pending AND expiry_date < CURRENT_TIMESTAMP. -/
def Referral.getExpiredReferrals (store : List Referral) (now : Int) : List Referral :=
  store.filter (fun r => r.status == ReferralStatus.pending && decide (r.expiry_date < now))

/-- Status of the referral with the given id, as stored. -/
def referralStatusOf (store : List Referral) (id : Nat) : Option ReferralStatus :=
  (Referral.findById store id).map Referral.status

/-- Write phase of the referral expiry cron job (CronJobService): for each
referral of the snapshot read earlier it calls Referral.updateStatus(id,
expired) — the unconditional update — against the current store. -/
def CronJobService.expireReferralsWrite (snapshot : List Referral) (store : List Referral) :
    List Referral :=
  snapshot.foldl (fun acc r => Referral.updateStatus acc r.id ReferralStatus.expired) store

/-- The whole referral expiry job run with no interleaved operation: read the
expired-pending snapshot, then blind-write expired over each snapshot id. -/
def CronJobService.expireReferralsJob (store : List Referral) (now : Int) : List Referral :=
  CronJobService.expireReferralsWrite (Referral.getExpiredReferrals store now) store

/-- Campaign type enum: ENUM(referral, milestone, seasonal, promotional). -/
inductive CampaignType
  | referral
  | milestone
  | seasonal
  | promotional
deriving DecidableEq, Repr

/-- Target audience enum: ENUM(customer, driver, restaurant, all). -/
inductive Audience
  | customer
  | driver
  | restaurant
  | all
deriving DecidableEq, Repr

/-- One row of the campaigns table (src/models/Campaign.js createTable).
max_participants is nullable, current_participants defaults to 0 and
is_active defaults to TRUE. -/
structure Campaign where
  id : String
  name : String
  campaign_type : CampaignType
  target_audience : Audience
  bonus_amount : Rat
  bonus_type : BonusType
  minimum_requirement : Rat
  max_participants : Option Nat
  current_participants : Nat
  start_date : Int
  end_date : Int
  is_active : Bool
deriving DecidableEq, Repr

/-- Input record of Campaign.create (src/models/Campaign.js). -/
structure CampaignData where
  name : String
  campaign_type : CampaignType
  target_audience : Option Audience := none
  bonus_amount : Rat
  bonus_type : Option BonusType := none
  minimum_requirement : Option Rat := none
  max_participants : Option Nat := none
  start_date : Int
  end_date : Int

/-- JavaScript `v || null` on a count: zero is falsy and becomes null. -/
def jsOrNullNat (v : Option Nat) : Option Nat :=
  match v with
  | none => none
  | some n => if n = 0 then none else some n

/-- Row built by Campaign.create: max_participants is stored via
`campaignData.max_participants || null` (so zero collapses to null),
current_participants and is_active take the table defaults 0 and TRUE. -/
def Campaign.createRow (newId : String) (d : CampaignData) : Campaign :=
  { id := newId
    name := d.name
    campaign_type := d.campaign_type
    target_audience := d.target_audience.getD Audience.all
    bonus_amount := d.bonus_amount
    bonus_type := d.bonus_type.getD BonusType.credit
    minimum_requirement := d.minimum_requirement.getD 0
    max_participants := jsOrNullNat d.max_participants
    current_participants := 0
    start_date := d.start_date
    end_date := d.end_date
    is_active := true }

/-- Campaign.findById: SELECT * FROM campaigns WHERE id = ?. -/
def Campaign.findById (store : List Campaign) (id : String) : Option Campaign :=
  store.find? (fun c => c.id == id)

/-- Campaign.incrementParticipants: UPDATE campaigns SET
current_participants = current_participants + 1 WHERE id = ? —
unconditional increment, no capacity re-check. -/
def Campaign.incrementParticipants (store : List Campaign) (id : String) : List Campaign :=
  store.map (fun c =>
    if c.id == id then { c with current_participants := c.current_participants + 1 } else c)

/-- Participant counter of the campaign with the given id, as stored. -/
def campaignParticipantsOf (store : List Campaign) (id : String) : Option Nat :=
  (Campaign.findById store id).map Campaign.current_participants

/-- One row of the referral_codes table (src/models/ReferralCode.js createTable). -/
structure ReferralCode where
  id : String
  owner_id : String
  owner_type : Role
  code : String
  usage_count : Nat
  max_usage : Nat
  is_active : Bool
  bonus_amount : Rat
  bonus_type : BonusType
  minimum_order_amount : Rat
  expiry_date : Option Int
  campaign_id : Option String
deriving DecidableEq, Repr

/-- ReferralCode.validateCode: SELECT * FROM referral_codes WHERE code = ?
AND is_active = TRUE AND usage_count < max_usage AND (expiry_date IS NULL OR
expiry_date > CURRENT_TIMESTAMP). -/
def ReferralCode.validateCode (store : List ReferralCode) (now : Int) (code : String) :
    Option ReferralCode :=
  store.find? (fun c =>
    c.code == code && c.is_active && decide (c.usage_count < c.max_usage) &&
    (match c.expiry_date with
     | none => true
     | some e => decide (now < e)))

/-- ReferralCode.incrementUsage: UPDATE referral_codes SET usage_count =
usage_count + 1 WHERE id = ?. -/
def ReferralCode.incrementUsage (store : List ReferralCode) (id : String) : List ReferralCode :=
  store.map (fun c => if c.id == id then { c with usage_count := c.usage_count + 1 } else c)

/-- ReferralController.getCompletionCondition (src/controllers/referralController.js):
customer maps to first_order, driver to first_delivery, restaurant to
registration; the JavaScript default branch (first_order) is unreachable
because referee_type is validated against the three-role enum. -/
def ReferralController.getCompletionCondition (refereeType : Role) : CompletionCondition :=
  match refereeType with
  | Role.customer => CompletionCondition.first_order
  | Role.driver => CompletionCondition.first_delivery
  | Role.restaurant => CompletionCondition.registration

/-- ReferralController.getRefereeBonus: the role-based default constants
(10.00 / 25.00 / 50.00), with the corresponding environment variables unset. -/
def ReferralController.getRefereeBonus (refereeType : Role) : Rat :=
  match refereeType with
  | Role.customer => 10
  | Role.driver => 25
  | Role.restaurant => 50

/-- The order/delivery/verification event payload passed to the trigger
endpoint; every key may be absent (JavaScript undefined). -/
structure TriggerData where
  customer_id : Option String := none
  driver_id : Option String := none
  user_id : Option String := none
  amount : Option Rat := none
deriving DecidableEq, Repr

/-- JavaScript falsiness of the minimum_order_amount column:
`!referral.minimum_order_amount` is true when the column is NULL or zero. -/
def minOrderFalsy : Option Rat → Bool
  | none => true
  | some m => m == 0

/-- JavaScript comparison `payload.amount >= m`: false when the amount key is
absent (undefined compares as NaN), otherwise the rational comparison. -/
def amountGe (a : Option Rat) (m : Rat) : Bool :=
  match a with
  | some x => decide (m ≤ x)
  | none => false

/-- ReferralController.shouldCompleteReferral (src/controllers/referralController.js
lines 362-387): the pure trigger-matching predicate, one case per
completion_condition; the trigger type arrives as a plain string. -/
def ReferralController.shouldCompleteReferral (r : Referral) (triggerType : String)
    (td : TriggerData) : Bool :=
  match r.completion_condition with
  | CompletionCondition.first_order =>
      triggerType == "order_completed" &&
      td.customer_id == some r.referee_id &&
      (minOrderFalsy r.minimum_order_amount ||
        (match r.minimum_order_amount with
         | some m => amountGe td.amount m
         | none => false))
  | CompletionCondition.first_delivery =>
      triggerType == "delivery_completed" &&
      td.driver_id == some r.referee_id
  | CompletionCondition.registration =>
      triggerType == "user_verified" &&
      td.user_id == some r.referee_id

/-- Does an existing referral row collide with the UNIQUE KEY unique_referral
(referrer_id, referee_id, referrer_type, referee_type) of the referrals
table? -/
def referralKeyMatches (a b : Referral) : Bool :=
  a.referrer_id == b.referrer_id && a.referee_id == b.referee_id &&
  a.referrer_type == b.referrer_type && a.referee_type == b.referee_type

/-- The INSERT of Referral.create as constrained by the UNIQUE KEY
unique_referral declared in createTable: inserting a row whose
(referrer_id, referee_id, referrer_type, referee_type) tuple already exists
fails with a duplicate-entry error (none); otherwise the row is prepended
(newest first). -/
def Referral.insertRow (store : List Referral) (row : Referral) : Option (List Referral) :=
  if store.any (fun r => referralKeyMatches r row) then none else some (row :: store)

/-- Number of stored referrals carrying one
(referrer_id, referee_id, referrer_type, referee_type) tuple. -/
def referralTupleCount (store : List Referral) (rid reeId : String) (rt ret : Role) : Nat :=
  store.countP (fun r =>
    r.referrer_id == rid && r.referee_id == reeId &&
    r.referrer_type == rt && r.referee_type == ret)

/-- The invariant of the referrals table: at most one row per
(referrer_id, referee_id, referrer_type, referee_type) tuple. -/
def AtMostOneReferralPerTuple (store : List Referral) : Prop :=
  ∀ rid reeId rt ret, referralTupleCount store rid reeId rt ret ≤ 1

/-- Store visible to ReferralController.createReferral. -/
structure ControllerState where
  codes : List ReferralCode
  referrals : List Referral
  campaigns : List Campaign
  now : Int
deriving Repr

/-- The validated body of a create-referral request (shape enforced by
validateReferral in src/validators/referralValidator.js). -/
structure CreateReferralRequest where
  referral_code : String
  referee_id : String
  referee_type : Role
deriving DecidableEq, Repr

/-- Outcome of ReferralController.createReferral, one constructor per
response the controller can produce. -/
inductive CreateReferralResult
  | invalidCode
  | selfReferral
  | duplicateReferral
  | internalError
  | created (r : Referral)
deriving DecidableEq, Repr

/-- ReferralController.createReferral (src/controllers/referralController.js
lines 15-107) after body validation: resolve the code via
ReferralCode.validateCode (400 when unusable), reject self-referral
(code owner equals referee), scan the existing referrals of the referee and
reject with 409 when one matches the code owner identity and role; past
those guards the controller calls Campaign.findActive(referralCode.owner_type),
but no static findActive is defined on the Campaign model
(src/models/Campaign.js defines findActiveCampaigns and findByAudience
only), so the call raises a TypeError that the catch-all turns into a 500
internal-error response before any referral row is inserted. -/
def ReferralController.createReferral (st : ControllerState) (req : CreateReferralRequest) :
    ControllerState × CreateReferralResult :=
  match ReferralCode.validateCode st.codes st.now req.referral_code with
  | none => (st, CreateReferralResult.invalidCode)
  | some referralCode =>
    if referralCode.owner_id == req.referee_id then
      (st, CreateReferralResult.selfReferral)
    else
      let existingReferrals := Referral.findByReferee st.referrals req.referee_id
      match existingReferrals.find? (fun r =>
          r.referrer_id == referralCode.owner_id &&
          r.referrer_type == referralCode.owner_type) with
      | some _ => (st, CreateReferralResult.duplicateReferral)
      | none => (st, CreateReferralResult.internalError)

/-- State visible to RewardController.claimReward, with call counters for the
two external collaborators it may invoke after a successful compare-and-set. -/
structure ClaimState where
  rewards : List Reward
  creditCalls : Nat
  notifyCalls : Nat
deriving Repr

/-- Outcome of RewardController.claimReward, one constructor per response. -/
inductive ClaimResult
  | notFound
  | accessDenied
  | notClaimable
  | failed
  | claimed (r : Reward)
deriving DecidableEq, Repr

/-- RewardController.claimReward (reward controller, src/unnamed/part_001
lines 56-124): 404 when the reward is absent; 403 when the stored user_id
differs from the caller id; 400 when the status is not pending; otherwise it
runs the Reward.creditReward compare-and-set and, only when a row was
affected, calls the external credit collaborator and the notification
collaborator and answers 200 with the credited row. -/
def RewardController.claimReward (st : ClaimState) (callerId : String) (rewardId : Nat) :
    ClaimState × ClaimResult :=
  match Reward.findById st.rewards rewardId with
  | none => (st, ClaimResult.notFound)
  | some reward =>
    if reward.user_id == callerId then
      if reward.status == RewardStatus.pending then
        let res := Reward.creditReward st.rewards rewardId
        match res.2 with
        | some creditedReward =>
          ({ rewards := res.1
             creditCalls := st.creditCalls + 1
             notifyCalls := st.notifyCalls + 1 }, ClaimResult.claimed creditedReward)
        | none => ({ st with rewards := res.1 }, ClaimResult.failed)
      else (st, ClaimResult.notClaimable)
    else (st, ClaimResult.accessDenied)

/-- The milestone bonus table of RewardService.processMilestoneReward with
the environment overrides unset: 5, 10, 25, 50 and 100 completed referrals
pay 15, 30, 75, 150 and 300; any other key yields undefined, and the
`if (!amount)` guard then returns early (all listed amounts are nonzero, so
falsiness coincides with absence). -/
def milestoneAmounts (milestone : Nat) : Option Rat :=
  if milestone = 5 then some 15
  else if milestone = 10 then some 30
  else if milestone = 25 then some 75
  else if milestone = 50 then some 150
  else if milestone = 100 then some 300
  else none

/-- The dedup predicate of RewardService.processMilestoneReward applied to
one stored reward: reward_type is milestone_bonus, metadata is present, and
the milestone key of the parsed metadata equals the milestone number. -/
def isMilestoneRewardFor (milestone : Nat) (r : Reward) : Bool :=
  r.reward_type == RewardType.milestone_bonus &&
  (match r.metadata with
   | some md => md.milestone == some milestone
   | none => false)

/-- RewardService.processMilestoneReward (src/services/rewardsService.js
lines 74-141): resolve the milestone amount (unknown milestone returns
null); scan Reward.findByUser(userId, null, 1000, 0) — only the 1000 most
recent rewards of the user — for an existing milestone_bonus reward tagged
with this milestone number, returning null when found; otherwise create the
milestone reward (tagged with the milestone number as its metadata dedup
key) and auto-credit it through RewardService.creditReward, whose external
outcome is the oracle parameter.  Returns the created row as fetched at
creation time. -/
def RewardService.processMilestoneReward (externalSuccess : Bool) (st : SvcState)
    (userId : String) (userType : Role) (milestone : Nat) : SvcState × Option Reward :=
  match milestoneAmounts milestone with
  | none => (st, none)
  | some amount =>
    let existingRewards := Reward.findByUser st.rewards userId none 1000 0
    if existingRewards.any (isMilestoneRewardFor milestone) then (st, none)
    else
      let row := Reward.createRow st.now st.nextRewardId
        { user_id := userId
          user_type := userType
          reward_type := RewardType.milestone_bonus
          amount := amount
          source_type := SourceType.milestone
          metadata := some { milestone := some milestone } }
      let st1 : SvcState := { st with rewards := row :: st.rewards
                                      nextRewardId := st.nextRewardId + 1 }
      let res := RewardService.creditReward externalSuccess st1 row.id
      (res.1, some row)

/-- The fixed ascending milestone threshold set of
RewardService.checkMilestoneAchievements. -/
def milestoneThresholds : List Nat := [5, 10, 25, 50, 100]

/-- RewardService.checkMilestoneAchievements (src/services/rewardsService.js
lines 252-285): the completed-referral count is read through
Referral.getReferralStats and is passed here as a parameter; every reached
threshold is processed in ascending order and the rewards actually created
are collected. -/
def RewardService.checkMilestoneAchievements (externalSuccess : Bool) (st : SvcState)
    (userId : String) (userType : Role) (completedReferrals : Nat) :
    SvcState × List Reward :=
  milestoneThresholds.foldl (fun acc m =>
    if completedReferrals ≥ m then
      let res := RewardService.processMilestoneReward externalSuccess acc.1 userId userType m
      match res.2 with
      | some r => (res.1, acc.2 ++ [r])
      | none => (res.1, acc.2)
    else acc) (st, [])

/-- Number of stored milestone_bonus rewards of one user tagged with one
milestone number. -/
def milestoneRewardCount (store : List Reward) (userId : String) (milestone : Nat) : Nat :=
  store.countP (fun r => r.user_id == userId && isMilestoneRewardFor milestone r)

/-- State visible to RewardService.processCampaignReward. -/
structure CampaignSvcState where
  campaigns : List Campaign
  rewards : List Reward
  nextRewardId : Nat
  now : Int
deriving Repr

/-- The capacity guard of RewardService.processCampaignReward:
`campaign.max_participants && current_participants >= max_participants`.
A NULL (and, by JavaScript falsiness, a zero) max_participants disables the
check. -/
def campaignAtCapacity (c : Campaign) : Bool :=
  match c.max_participants with
  | none => false
  | some m => !(m == 0) && decide (m ≤ c.current_participants)

/-- RewardService.processCampaignReward (src/services/rewardsService.js
lines 194-249): returns null, touching nothing, when the campaign is absent,
inactive, outside its date window, or at capacity; otherwise creates a
campaign_bonus reward (amount is customAmount || campaign.bonus_amount) and
increments the participant counter. -/
def RewardService.processCampaignReward (st : CampaignSvcState) (userId : String)
    (userType : Role) (campaignId : String) (customAmount : Option Rat)
    (customDescription : Option String) : CampaignSvcState × Option Reward :=
  match Campaign.findById st.campaigns campaignId with
  | none => (st, none)
  | some campaign =>
    if !campaign.is_active then (st, none)
    else if decide (st.now < campaign.start_date) || decide (campaign.end_date < st.now) then
      (st, none)
    else if campaignAtCapacity campaign then (st, none)
    else
      let amount := jsOrRat customAmount campaign.bonus_amount
      let description := jsOrStr customDescription ("Campaign bonus: " ++ campaign.name)
      let row := Reward.createRow st.now st.nextRewardId
        { user_id := userId
          user_type := userType
          reward_type := RewardType.campaign_bonus
          amount := amount
          source_id := some campaignId
          source_type := SourceType.campaign
          description := some description }
      ({ st with rewards := row :: st.rewards
                 nextRewardId := st.nextRewardId + 1
                 campaigns := Campaign.incrementParticipants st.campaigns campaignId },
       some row)

/-- The raw body of a create-referral-code request as seen by the Joi schema
validateReferralCode (src/validators/referralValidator.js lines 15-30);
every key is optional.  Transport-level coercions and the uuid format check
on campaign_id are below this model; the two-decimal rounding of
Joi precision(2) affects stored precision, not acceptance. -/
structure CodeRequest where
  code : Option String := none
  max_usage : Option Int := none
  bonus_amount : Option Rat := none
  bonus_type : Option BonusType := none
  minimum_order_amount : Option Rat := none
  expiry_date : Option Int := none
  campaign_id : Option String := none
  allow_multiple : Option Bool := none
deriving DecidableEq, Repr

/-- The validated value produced by the Joi schema, defaults applied. -/
structure ValidatedCodeRequest where
  code : Option String
  max_usage : Int
  bonus_amount : Option Rat
  bonus_type : BonusType
  minimum_order_amount : Rat
  expiry_date : Option Int
  campaign_id : Option String
  allow_multiple : Bool
deriving DecidableEq, Repr

/-- Joi rule Joi.string().max(20) on the optional code. -/
def codeLenOk : Option String → Bool
  | none => true
  | some s => decide (s.length ≤ 20)

/-- Joi rule Joi.number().integer().min(1).max(1000) on the optional
max_usage (integrality is carried by the Int type of the model). -/
def maxUsageOk : Option Int → Bool
  | none => true
  | some n => decide (1 ≤ n) && decide (n ≤ 1000)

/-- Joi rule Joi.number().positive() on the optional bonus_amount. -/
def bonusAmountOk : Option Rat → Bool
  | none => true
  | some q => decide (0 < q)

/-- Joi rule Joi.number().min(0) on the optional minimum_order_amount. -/
def minOrderOk : Option Rat → Bool
  | none => true
  | some q => decide (0 ≤ q)

/-- Joi rule Joi.date().greater(now) on the optional expiry_date. -/
def expiryFutureOk (now : Int) : Option Int → Bool
  | none => true
  | some t => decide (now < t)

/-- validateReferralCode (src/validators/referralValidator.js lines 15-30):
accepts when every supplied field passes its Joi rule and then applies the
schema defaults max_usage 50, bonus_type credit, minimum_order_amount 0 and
allow_multiple false. -/
def validateReferralCode (now : Int) (r : CodeRequest) : Option ValidatedCodeRequest :=
  if codeLenOk r.code && maxUsageOk r.max_usage && bonusAmountOk r.bonus_amount &&
     minOrderOk r.minimum_order_amount && expiryFutureOk now r.expiry_date then
    some { code := r.code
           max_usage := r.max_usage.getD 50
           bonus_amount := r.bonus_amount
           bonus_type := r.bonus_type.getD BonusType.credit
           minimum_order_amount := r.minimum_order_amount.getD 0
           expiry_date := r.expiry_date
           campaign_id := r.campaign_id
           allow_multiple := r.allow_multiple.getD false }
  else none

/-! Concrete sample rows used by the closed counterexample theorems and the
witness instantiations below. -/

/-- A pending reward owned by alice, used to instantiate the creditReward
idempotency theorem. -/
def c1Reward : Reward :=
  { id := 1
    user_id := "alice"
    user_type := Role.customer
    reward_type := RewardType.referral_bonus
    amount := 10
    currency := "USD"
    status := RewardStatus.pending
    expiry_date := 100
    source_id := some "ref-1"
    source_type := SourceType.referral
    description := none
    metadata := some {} }

/-- A single-reward service state holding c1Reward, no credit call made yet. -/
def c1State : SvcState :=
  { rewards := [c1Reward], nextRewardId := 2, creditCalls := 0, now := 0 }

/-- A pending referral whose expiry (5) is already past at sweep time (10). -/
def c2Referral : Referral :=
  { id := 1
    referrer_id := "cust-1"
    referee_id := "cust-2"
    referrer_type := Role.customer
    referee_type := Role.customer
    referral_code := "CUS7F3K2A"
    status := ReferralStatus.pending
    completion_condition := CompletionCondition.first_order
    completion_date := none
    referrer_bonus := 10
    referee_bonus := 10
    referrer_bonus_type := BonusType.credit
    referee_bonus_type := BonusType.credit
    minimum_order_amount := some 0
    expiry_date := 5
    campaign_id := none
    completion_order_id := none
    completion_delivery_id := none }

/-- A credited non-milestone reward of user u; a thousand copies of it bury
the older milestone reward below the LIMIT 1000 dedup scan window. -/
def c3Junk : Reward :=
  { id := 0
    user_id := "u"
    user_type := Role.customer
    reward_type := RewardType.referral_bonus
    amount := 1
    currency := "USD"
    status := RewardStatus.credited
    expiry_date := 0
    source_id := none
    source_type := SourceType.referral
    description := none
    metadata := some {} }

/-- The existing milestone-5 reward of user u, oldest row of the store. -/
def c3OldMilestone : Reward :=
  { id := 1
    user_id := "u"
    user_type := Role.customer
    reward_type := RewardType.milestone_bonus
    amount := 15
    currency := "USD"
    status := RewardStatus.credited
    expiry_date := 0
    source_id := none
    source_type := SourceType.milestone
    description := none
    metadata := some { milestone := some 5 } }

/-- Store of user u with 1001 rewards: 1000 newer non-milestone rewards and,
oldest of all, the existing milestone-5 reward. -/
def c3State : SvcState :=
  { rewards := List.replicate 1000 c3Junk ++ [c3OldMilestone]
    nextRewardId := 2000
    creditCalls := 0
    now := 0 }

/-- An empty-store service state used to instantiate the amended milestone
dedup theorem. -/
def c3SmallState : SvcState :=
  { rewards := [], nextRewardId := 1, creditCalls := 0, now := 0 }

/-- The usable referral code of the creation scenario: CUS7F3K2A, owned by
cust-1 (customer), bonus 10.00 credit, usage 0 of 50, active, no expiry. -/
def c6Code : ReferralCode :=
  { id := "code-1"
    owner_id := "cust-1"
    owner_type := Role.customer
    code := "CUS7F3K2A"
    usage_count := 0
    max_usage := 50
    is_active := true
    bonus_amount := 10
    bonus_type := BonusType.credit
    minimum_order_amount := 0
    expiry_date := none
    campaign_id := none }

/-- Controller store of the creation scenario: the code exists, no referral
exists yet, no campaign is configured. -/
def c6State : ControllerState :=
  { codes := [c6Code], referrals := [], campaigns := [], now := 0 }

/-- The creation request of the scenario: referee cust-2, role customer,
using code CUS7F3K2A. -/
def c6Request : CreateReferralRequest :=
  { referral_code := "CUS7F3K2A", referee_id := "cust-2", referee_type := Role.customer }

/-- An existing pending referral cust-1 to cust-2 through code CUS7F3K2A. -/
def c4Existing : Referral :=
  { c2Referral with id := 7 }

/-- A second, distinct code of the same owner cust-1, used to show the
duplicate guard fires regardless of which code is presented. -/
def c4Code : ReferralCode :=
  { c6Code with id := "code-2", code := "CUSAAAAAA" }

/-- Controller store for the duplicate-rejection witness: the second code of
cust-1 plus the already-existing cust-1 to cust-2 referral. -/
def c4State : ControllerState :=
  { codes := [c4Code], referrals := [c4Existing], campaigns := [], now := 0 }

/-- The duplicate attempt: cust-2 presents the second code of cust-1. -/
def c4Request : CreateReferralRequest :=
  { referral_code := "CUSAAAAAA", referee_id := "cust-2", referee_type := Role.customer }

/-- A pending first_order referral with minimum_order_amount 25, used to
instantiate the trigger-matching theorem. -/
def c5Referral : Referral :=
  { c2Referral with id := 2, minimum_order_amount := some 25 }

/-- An order_completed payload of the referee with amount exactly at the
25 minimum. -/
def c5Payload : TriggerData :=
  { customer_id := some "cust-2", amount := some 25 }

/-- A running campaign at capacity: max_participants 1, current 1. -/
def c7FullCampaign : Campaign :=
  { id := "camp-1"
    name := "Summer push"
    campaign_type := CampaignType.referral
    target_audience := Audience.customer
    bonus_amount := 20
    bonus_type := BonusType.credit
    minimum_requirement := 0
    max_participants := some 1
    current_participants := 1
    start_date := 0
    end_date := 100
    is_active := true }

/-- Campaign-settlement state holding only the full campaign, clock inside
the campaign window. -/
def c7State : CampaignSvcState :=
  { campaigns := [c7FullCampaign], rewards := [], nextRewardId := 1, now := 50 }

/-- A pending reward owned by alice, claimed below by the non-owner bob. -/
def c8Reward : Reward :=
  { c1Reward with id := 9 }

/-- Claim-controller state holding only the reward of alice. -/
def c8State : ClaimState :=
  { rewards := [c8Reward], creditCalls := 0, notifyCalls := 0 }

/-- A reward-creation input with no currency supplied. -/
def c9Data : RewardData :=
  { user_id := "alice"
    user_type := Role.customer
    reward_type := RewardType.referral_bonus
    amount := 10
    source_type := SourceType.referral }

/-- A code-issuance request body with every optional field omitted. -/
def c10Request : CodeRequest := {}

/-- C9: a reward created without an explicit currency value is stored with
currency USD, and every created reward starts in status pending regardless of
its reward_type. -/
theorem reward_create_currency_default_and_pending (now : Int) (newId : Nat) (d : RewardData)
    (hcur : d.currency = none) :
    (Reward.createRow now newId d).currency = "USD" ∧
    ∀ d2 : RewardData, (Reward.createRow now newId d2).status = RewardStatus.pending :=
  ⟨by simp [Reward.createRow, hcur, jsOrStr], fun _ => rfl⟩

/-- Witness: the C9 theorem applied at the concrete no-currency input. -/
theorem reward_create_currency_default_and_pending_witness :
    c9Data.currency = none ∧
    ((Reward.createRow 0 1 c9Data).currency = "USD" ∧
      ∀ d2 : RewardData, (Reward.createRow 0 1 d2).status = RewardStatus.pending) :=
  ⟨rfl, reward_create_currency_default_and_pending 0 1 c9Data rfl⟩

/-- C2, evaluated at the failing input: referral 1 is pending with expiry 5;
the sweep reads its expired-pending snapshot at time 10; the referral is
completed in between; the sweep write phase then runs the unconditional
Referral.updateStatus and overwrites the completed status with expired, so a
transition does leave the completed state. -/
theorem expiry_sweep_overwrites_interleaved_completion :
    referralStatusOf (Referral.completeReferral [c2Referral] 1 (some "order-9") none 11).1 1
        = some ReferralStatus.completed ∧
    referralStatusOf
      (CronJobService.expireReferralsWrite (Referral.getExpiredReferrals [c2Referral] 10)
        (Referral.completeReferral [c2Referral] 1 (some "order-9") none 11).1) 1
        = some ReferralStatus.expired :=
  ⟨rfl, rfl⟩

/-- C6, evaluated at the failing input: the scenario request (usable code
CUS7F3K2A with bonus 10.00 owned by cust-1, referee cust-2) passes every
guard and reaches the campaign-resolution step, where the call to the
undefined Campaign.findActive raises a TypeError; the controller answers 500
and no referral row is created. -/
theorem create_referral_scenario_hits_internal_error :
    ReferralController.createReferral c6State c6Request
        = (c6State, CreateReferralResult.internalError) ∧
    (ReferralController.createReferral c6State c6Request).1.referrals = [] :=
  ⟨rfl, rfl⟩

/-- C5: for a first_order referral the trigger predicate matches exactly when
the trigger type is order_completed, the payload customer_id equals the
referee id, and the minimum order amount is unset or zero or the payload
amount is at least the minimum; an amount strictly below a positive minimum
never matches, and an amount exactly at the minimum always matches. -/
theorem should_complete_first_order_spec (r : Referral) (triggerType : String)
    (td : TriggerData) (hc : r.completion_condition = CompletionCondition.first_order) :
    (ReferralController.shouldCompleteReferral r triggerType td = true ↔
      (triggerType = "order_completed" ∧ td.customer_id = some r.referee_id ∧
        (r.minimum_order_amount = none ∨ r.minimum_order_amount = some 0 ∨
          ∃ a m, td.amount = some a ∧ r.minimum_order_amount = some m ∧ m ≤ a))) ∧
    (∀ a m, r.minimum_order_amount = some m → 0 < m → td.amount = some a → a < m →
      ReferralController.shouldCompleteReferral r triggerType td = false) ∧
    (∀ m, r.minimum_order_amount = some m → td.amount = some m →
      triggerType = "order_completed" → td.customer_id = some r.referee_id →
      ReferralController.shouldCompleteReferral r triggerType td = true) := by
  refine ⟨?_, ?_, ?_⟩
  · simp only [ReferralController.shouldCompleteReferral, hc]
    cases hmin : r.minimum_order_amount with
    | none =>
      cases hamt : td.amount <;>
        simp [minOrderFalsy, amountGe, Bool.and_eq_true, Bool.or_eq_true, beq_iff_eq]
    | some m =>
      cases hamt : td.amount with
      | none =>
        simp [minOrderFalsy, amountGe, Bool.and_eq_true, Bool.or_eq_true, beq_iff_eq]
        tauto
      | some a =>
        simp [minOrderFalsy, amountGe, Bool.and_eq_true, Bool.or_eq_true, beq_iff_eq,
          decide_eq_true_eq]
        tauto
  · intro a m hmin hpos hamt hlt
    simp only [ReferralController.shouldCompleteReferral, hc, hmin, hamt]
    have hz : (minOrderFalsy (some m) || amountGe (some a) m) = false := by
      simp [minOrderFalsy, amountGe]
      exact ⟨fun h => absurd hpos (by simp [h]), hlt⟩
    simp only [hz, Bool.and_false]
  · intro m hmin hamt htt hcid
    simp only [ReferralController.shouldCompleteReferral, hc, hmin, hamt, htt, hcid]
    simp [minOrderFalsy, amountGe]

/-- Witness: the C5 theorem applied at a concrete first_order referral with
minimum 25 and a payload at exactly 25; both the iff and the boundary parts
are exercised. -/
theorem should_complete_first_order_spec_witness :
    c5Referral.completion_condition = CompletionCondition.first_order ∧
    ReferralController.shouldCompleteReferral c5Referral "order_completed" c5Payload = true :=
  ⟨rfl,
    (should_complete_first_order_spec c5Referral "order_completed" c5Payload rfl).2.2
      25 rfl rfl rfl rfl⟩

/-- The optional-code length rule as a proposition. -/
theorem codeLenOk_iff (c : Option String) :
    codeLenOk c = true ↔ ∀ s, c = some s → s.length ≤ 20 := by
  cases c <;> simp [codeLenOk]

/-- The optional max_usage range rule as a proposition. -/
theorem maxUsageOk_iff (v : Option Int) :
    maxUsageOk v = true ↔ ∀ n, v = some n → 1 ≤ n ∧ n ≤ 1000 := by
  cases v <;> simp [maxUsageOk]

/-- The optional bonus_amount positivity rule as a proposition. -/
theorem bonusAmountOk_iff (v : Option Rat) :
    bonusAmountOk v = true ↔ ∀ q, v = some q → 0 < q := by
  cases v <;> simp [bonusAmountOk]

/-- The optional minimum_order_amount nonnegativity rule as a proposition. -/
theorem minOrderOk_iff (v : Option Rat) :
    minOrderOk v = true ↔ ∀ q, v = some q → 0 ≤ q := by
  cases v <;> simp [minOrderOk]

/-- The optional expiry_date future rule as a proposition. -/
theorem expiryFutureOk_iff (now : Int) (v : Option Int) :
    expiryFutureOk now v = true ↔ ∀ t, v = some t → now < t := by
  cases v <;> simp [expiryFutureOk]

/-- C10: the code-issuance validator accepts exactly when every supplied
field passes its rule — max_usage in [1, 1000], bonus_amount strictly
positive, minimum_order_amount nonnegative, code at most 20 characters,
expiry_date in the future — and on acceptance the omitted fields take the
defaults max_usage 50, bonus_type credit, minimum_order_amount 0 and
allow_multiple false. -/
theorem validate_code_request_spec (now : Int) (r : CodeRequest) :
    ((validateReferralCode now r).isSome ↔
      ((∀ s, r.code = some s → s.length ≤ 20) ∧
       (∀ n, r.max_usage = some n → 1 ≤ n ∧ n ≤ 1000) ∧
       (∀ q, r.bonus_amount = some q → 0 < q) ∧
       (∀ q, r.minimum_order_amount = some q → 0 ≤ q) ∧
       (∀ t, r.expiry_date = some t → now < t))) ∧
    (∀ v, validateReferralCode now r = some v →
      (r.max_usage = none → v.max_usage = 50) ∧
      (r.bonus_type = none → v.bonus_type = BonusType.credit) ∧
      (r.minimum_order_amount = none → v.minimum_order_amount = 0) ∧
      (r.allow_multiple = none → v.allow_multiple = false)) := by
  constructor
  · unfold validateReferralCode
    split
    next h =>
      simp only [Bool.and_eq_true] at h
      obtain ⟨⟨⟨⟨h1, h2⟩, h3⟩, h4⟩, h5⟩ := h
      simp only [Option.isSome_some, true_iff]
      exact ⟨(codeLenOk_iff _).mp h1, (maxUsageOk_iff _).mp h2, (bonusAmountOk_iff _).mp h3,
        (minOrderOk_iff _).mp h4, (expiryFutureOk_iff _ _).mp h5⟩
    next h =>
      simp only [Option.isSome_none, Bool.false_eq_true, false_iff]
      intro hcon
      apply h
      simp only [Bool.and_eq_true]
      exact ⟨⟨⟨⟨(codeLenOk_iff _).mpr hcon.1, (maxUsageOk_iff _).mpr hcon.2.1⟩,
        (bonusAmountOk_iff _).mpr hcon.2.2.1⟩, (minOrderOk_iff _).mpr hcon.2.2.2.1⟩,
        (expiryFutureOk_iff _ _).mpr hcon.2.2.2.2⟩
  · intro v hv
    unfold validateReferralCode at hv
    split at hv
    · cases hv
      refine ⟨?_, ?_, ?_, ?_⟩ <;> intro h <;> simp [h]
    · cases hv

/-- Witness: the C10 theorem applied at the all-defaults request body. -/
theorem validate_code_request_spec_witness :
    (validateReferralCode 0 c10Request).isSome ∧ c10Request.max_usage = none :=
  ⟨(validate_code_request_spec 0 c10Request).1.mpr
      ⟨by simp [c10Request], by simp [c10Request], by simp [c10Request],
        by simp [c10Request], by simp [c10Request]⟩,
    rfl⟩

/-- C8: a claim by anyone other than the recipient is answered with access
denied and leaves the whole state — rewards, credit calls, notification
calls — untouched, and the counters of the two external collaborators can
only move when the caller is the recipient of an existing reward whose
status is pending. -/
theorem claim_reward_access_control (st : ClaimState) (callerId : String) (rewardId : Nat) :
    (∀ r, Reward.findById st.rewards rewardId = some r → r.user_id ≠ callerId →
      RewardController.claimReward st callerId rewardId = (st, ClaimResult.accessDenied)) ∧
    ((RewardController.claimReward st callerId rewardId).1.creditCalls ≠ st.creditCalls ∨
      (RewardController.claimReward st callerId rewardId).1.notifyCalls ≠ st.notifyCalls →
      ∃ r, Reward.findById st.rewards rewardId = some r ∧ r.user_id = callerId ∧
        r.status = RewardStatus.pending) := by
  constructor
  · intro r hf hne
    unfold RewardController.claimReward
    rw [hf]
    have hb : (r.user_id == callerId) = false := by simp [hne]
    simp [hb]
  · intro hchanged
    unfold RewardController.claimReward at hchanged
    cases hf : Reward.findById st.rewards rewardId with
    | none => rw [hf] at hchanged; simp at hchanged
    | some r =>
      rw [hf] at hchanged
      by_cases hu : (r.user_id == callerId) = true
      · by_cases hs : (r.status == RewardStatus.pending) = true
        · exact ⟨r, rfl, by simpa using hu, by simpa using hs⟩
        · rw [Bool.not_eq_true] at hs
          simp [hu, hs] at hchanged
      · rw [Bool.not_eq_true] at hu
        simp [hu] at hchanged

/-- Witness: the C8 theorem applied at the reward of alice claimed by bob. -/
theorem claim_reward_access_control_witness :
    Reward.findById c8State.rewards 9 = some c8Reward ∧
    c8Reward.user_id ≠ "bob" ∧
    RewardController.claimReward c8State "bob" 9 = (c8State, ClaimResult.accessDenied) :=
  ⟨rfl, by decide,
    (claim_reward_access_control c8State "bob" 9).1 c8Reward rfl (by decide)⟩

/-- A row-wise UPDATE that never changes the field scanned by a lookup
commutes with find?: the lookup on the updated store returns the updated
image of the row the lookup on the old store returned. -/
theorem find?_map_of_pred_preserved {α : Type} (p : α → Bool) (f : α → α) (l : List α)
    (hp : ∀ x, p (f x) = p x) (c : α) (h : l.find? p = some c) :
    (l.map f).find? p = some (f c) := by
  induction l with
  | nil => simp at h
  | cons hd tl ih =>
    rw [List.find?_cons] at h
    rw [List.map_cons, List.find?_cons, hp hd]
    cases hpd : p hd with
    | true =>
      rw [hpd] at h
      obtain rfl := Option.some.inj h
      rfl
    | false =>
      rw [hpd] at h
      exact ih h

/-- Looking a campaign up after incrementParticipants returns the same row
with its counter incremented (the update changes no id). -/
theorem findById_incrementParticipants (store : List Campaign) (cid : String) (c : Campaign)
    (h : Campaign.findById store cid = some c) :
    Campaign.findById (Campaign.incrementParticipants store cid) cid =
      some { c with current_participants := c.current_participants + 1 } := by
  have hpres : ∀ x : Campaign,
      (((if (x.id == cid) = true then
          { x with current_participants := x.current_participants + 1 } else x) : Campaign).id
        == cid) = (x.id == cid) := by
    intro x
    by_cases hx : (x.id == cid) = true <;> simp [hx]
  have h2 : store.find? (fun x : Campaign => x.id == cid) = some c := h
  have hmain := find?_map_of_pred_preserved (fun x : Campaign => x.id == cid)
    (fun x : Campaign => if (x.id == cid) = true then
      { x with current_participants := x.current_participants + 1 } else x)
    store hpres c h2
  have hpc0 := List.find?_some h2
  have hpc : (c.id == cid) = true := hpc0
  exact hmain.trans (by simp [hpc])

/-- C7: campaign settlement returns null, creating no reward row and leaving
the participant counter untouched, when the campaign is absent, inactive,
outside its date window, or when its counter has reached a nonzero
max_participants; otherwise it creates a pending campaign_bonus reward and
increments the counter by one.  The last conjunct records that
Campaign.create never stores max_participants zero (zero collapses to NULL),
so the nonzero proviso holds for every campaign the model can create. -/
theorem process_campaign_reward_guards (st : CampaignSvcState) (userId : String)
    (userType : Role) (cid : String) (customAmount : Option Rat)
    (customDescription : Option String) :
    (Campaign.findById st.campaigns cid = none →
      RewardService.processCampaignReward st userId userType cid customAmount customDescription
        = (st, none)) ∧
    (∀ c, Campaign.findById st.campaigns cid = some c → c.is_active = false →
      RewardService.processCampaignReward st userId userType cid customAmount customDescription
        = (st, none)) ∧
    (∀ c, Campaign.findById st.campaigns cid = some c →
      (st.now < c.start_date ∨ c.end_date < st.now) →
      RewardService.processCampaignReward st userId userType cid customAmount customDescription
        = (st, none)) ∧
    (∀ c m, Campaign.findById st.campaigns cid = some c → c.max_participants = some m →
      m ≠ 0 → m ≤ c.current_participants →
      RewardService.processCampaignReward st userId userType cid customAmount customDescription
        = (st, none)) ∧
    (∀ c, Campaign.findById st.campaigns cid = some c → c.is_active = true →
      ¬ st.now < c.start_date → ¬ c.end_date < st.now → campaignAtCapacity c = false →
      ∃ row, RewardService.processCampaignReward st userId userType cid customAmount
          customDescription
          = ({ st with rewards := row :: st.rewards
                       nextRewardId := st.nextRewardId + 1
                       campaigns := Campaign.incrementParticipants st.campaigns cid },
             some row) ∧
        row.reward_type = RewardType.campaign_bonus ∧
        row.status = RewardStatus.pending ∧
        campaignParticipantsOf (Campaign.incrementParticipants st.campaigns cid) cid
          = some (c.current_participants + 1)) ∧
    (∀ (d : CampaignData) (newId : String), (Campaign.createRow newId d).max_participants ≠ some 0) := by
  refine ⟨?_, ?_, ?_, ?_, ?_, ?_⟩
  · intro hf
    unfold RewardService.processCampaignReward
    rw [hf]
  · intro c hf hact
    unfold RewardService.processCampaignReward
    rw [hf]
    simp [hact]
  · intro c hf hwin
    unfold RewardService.processCampaignReward
    rw [hf]
    by_cases hact : c.is_active
    · have : (decide (st.now < c.start_date) || decide (c.end_date < st.now)) = true := by
        rcases hwin with h | h <;> simp [h]
      simp [hact, this]
    · simp [hact]
  · intro c m hf hmax hm0 hcap
    unfold RewardService.processCampaignReward
    rw [hf]
    by_cases hact : c.is_active
    · by_cases hwin : (decide (st.now < c.start_date) || decide (c.end_date < st.now)) = true
      · simp [hact, hwin]
      · rw [Bool.not_eq_true] at hwin
        have hcapb : campaignAtCapacity c = true := by
          simp [campaignAtCapacity, hmax, hm0, hcap]
        simp [hact, hwin, hcapb]
    · simp [hact]
  · intro c hf hact hs he hcap
    unfold RewardService.processCampaignReward
    rw [hf]
    have hwin : (decide (st.now < c.start_date) || decide (c.end_date < st.now)) = false := by
      simp [hs, he]
    refine ⟨Reward.createRow st.now st.nextRewardId
        { user_id := userId
          user_type := userType
          reward_type := RewardType.campaign_bonus
          amount := jsOrRat customAmount c.bonus_amount
          source_id := some cid
          source_type := SourceType.campaign
          description := some (jsOrStr customDescription ("Campaign bonus: " ++ c.name)) },
      ?_, rfl, rfl, ?_⟩
    · simp [hact, hwin, hcap]
    · unfold campaignParticipantsOf
      rw [findById_incrementParticipants st.campaigns cid c hf]
      rfl
  · intro d newId
    unfold Campaign.createRow jsOrNullNat
    cases d.max_participants with
    | none => simp
    | some n =>
      by_cases hn : n = 0
      · simp [hn]
      · simp [hn]

/-- Witness: the C7 theorem applied at the scenario campaign with
max_participants 1 and current_participants 1 — settlement returns null and
changes nothing. -/
theorem process_campaign_reward_guards_witness :
    Campaign.findById c7State.campaigns "camp-1" = some c7FullCampaign ∧
    c7FullCampaign.max_participants = some 1 ∧
    RewardService.processCampaignReward c7State "alice" Role.customer "camp-1" none none
      = (c7State, none) :=
  ⟨rfl, rfl,
    (process_campaign_reward_guards c7State "alice" Role.customer "camp-1" none
        none).2.2.2.1 c7FullCampaign 1 rfl rfl (by decide) (by decide)⟩

/-- Running the pending-to-credited compare-and-set on a store whose lookup
of the id yields a pending reward: the lookup afterwards yields that reward
credited, and a row was affected. -/
theorem findById_creditCAS_pending (store : List Reward) (id : Nat) (r : Reward)
    (hf : Reward.findById store id = some r) (hp : r.status = RewardStatus.pending) :
    Reward.findById (Reward.creditCAS store id).1 id =
      some { r with status := RewardStatus.credited } ∧
    (Reward.creditCAS store id).2 = true := by
  have h2 : store.find? (fun x : Reward => x.id == id) = some r := hf
  have hpc0 := List.find?_some h2
  have hpc : (r.id == id) = true := hpc0
  have hps : (r.status == RewardStatus.pending) = true := by simp [hp]
  constructor
  · have hpres : ∀ x : Reward,
        (((if (x.id == id && x.status == RewardStatus.pending) = true then
            { x with status := RewardStatus.credited } else x) : Reward).id == id)
          = (x.id == id) := by
      intro x
      by_cases hx : (x.id == id && x.status == RewardStatus.pending) = true <;> simp [hx]
    have hmain := find?_map_of_pred_preserved (fun x : Reward => x.id == id)
      (fun x : Reward => if (x.id == id && x.status == RewardStatus.pending) = true then
        { x with status := RewardStatus.credited } else x)
      store hpres r h2
    exact hmain.trans (by simp [hpc, hps])
  · show store.any _ = true
    rw [List.any_eq_true]
    exact ⟨r, List.mem_of_find?_eq_some h2, by simp [hpc, hps]⟩

/-- One invocation of the service creditReward on a pending reward with a
succeeding collaborator: the call counter advances by one, the store is the
compare-and-set image, and the credited row is returned. -/
theorem creditReward_step_pending_true (s : SvcState) (id : Nat) (r : Reward)
    (hf : Reward.findById s.rewards id = some r) (hp : r.status = RewardStatus.pending) :
    RewardService.creditReward true s id =
      ({ s with rewards := (Reward.creditCAS s.rewards id).1
                creditCalls := s.creditCalls + 1 },
       some { r with status := RewardStatus.credited }) := by
  have h2 := findById_creditCAS_pending s.rewards id r hf hp
  unfold RewardService.creditReward Reward.creditReward
  rw [hf]
  simp only []
  rw [if_pos hp]
  simp [h2.1, h2.2]

/-- One invocation of the service creditReward on a reward that is not
pending, with either collaborator outcome: nothing happens and the stored
reward is returned unchanged. -/
theorem creditReward_step_nonpending (b : Bool) (s : SvcState) (id : Nat) (r : Reward)
    (hf : Reward.findById s.rewards id = some r) (hnp : r.status ≠ RewardStatus.pending) :
    RewardService.creditReward b s id = (s, some r) := by
  unfold RewardService.creditReward
  rw [hf]
  simp only []
  rw [if_neg hnp]

/-- Any number of further invocations on a non-pending reward leave the
state untouched. -/
theorem creditRewardN_nonpending (outcomes : List Bool) (s : SvcState) (id : Nat) (r : Reward)
    (hf : Reward.findById s.rewards id = some r) (hnp : r.status ≠ RewardStatus.pending) :
    RewardService.creditRewardN outcomes s id = s := by
  induction outcomes with
  | nil => rfl
  | cons b bs ih =>
    unfold RewardService.creditRewardN
    rw [creditReward_step_nonpending b s id r hf hnp]
    exact ih

/-- C1: starting from a stored pending reward, any number N of invocations of
the service creditReward with a succeeding collaborator makes exactly one
external credit call and leaves the reward credited; a call that finds the
reward already credited returns it unchanged without touching anything; and
with a failing collaborator the status update is not performed — the store
is unchanged, null is returned, and the one external call is recorded. -/
theorem credit_reward_idempotent (s : SvcState) (rewardId : Nat) (r : Reward)
    (hf : Reward.findById s.rewards rewardId = some r)
    (hp : r.status = RewardStatus.pending) (n : Nat) (hn : 1 ≤ n) :
    ((RewardService.creditRewardN (List.replicate n true) s rewardId).creditCalls
        = s.creditCalls + 1 ∧
      rewardStatusOf (RewardService.creditRewardN (List.replicate n true) s rewardId).rewards
        rewardId = some RewardStatus.credited) ∧
    (∀ (b : Bool) (s2 : SvcState) (r2 : Reward),
      Reward.findById s2.rewards rewardId = some r2 → r2.status = RewardStatus.credited →
      RewardService.creditReward b s2 rewardId = (s2, some r2)) ∧
    (∀ (s2 : SvcState) (r2 : Reward),
      Reward.findById s2.rewards rewardId = some r2 → r2.status = RewardStatus.pending →
      (RewardService.creditReward false s2 rewardId).1.rewards = s2.rewards ∧
      (RewardService.creditReward false s2 rewardId).2 = none ∧
      (RewardService.creditReward false s2 rewardId).1.creditCalls = s2.creditCalls + 1) := by
  refine ⟨?_, ?_, ?_⟩
  · obtain ⟨m, rfl⟩ : ∃ m, n = m + 1 := ⟨n - 1, by omega⟩
    rw [List.replicate_succ]
    unfold RewardService.creditRewardN
    rw [creditReward_step_pending_true s rewardId r hf hp]
    set s1 : SvcState := { s with rewards := (Reward.creditCAS s.rewards rewardId).1
                                  creditCalls := s.creditCalls + 1 } with hs1
    have hf1 : Reward.findById s1.rewards rewardId =
        some { r with status := RewardStatus.credited } :=
      (findById_creditCAS_pending s.rewards rewardId r hf hp).1
    have hrest : RewardService.creditRewardN (List.replicate m true) s1 rewardId = s1 :=
      creditRewardN_nonpending _ s1 rewardId { r with status := RewardStatus.credited } hf1
        (by simp)
    rw [hrest]
    exact ⟨rfl, by rw [rewardStatusOf, hf1]; rfl⟩
  · intro b s2 r2 hf2 hc2
    exact creditReward_step_nonpending b s2 rewardId r2 hf2 (by simp [hc2])
  · intro s2 r2 hf2 hp2
    unfold RewardService.creditReward
    rw [hf2]
    simp only []
    rw [if_pos hp2]
    exact ⟨rfl, rfl, rfl⟩

/-- Witness: the C1 theorem applied at the single pending reward of alice
with two successful invocations. -/
theorem credit_reward_idempotent_witness :
    Reward.findById c1State.rewards 1 = some c1Reward ∧
    c1Reward.status = RewardStatus.pending ∧
    ((RewardService.creditRewardN (List.replicate 2 true) c1State 1).creditCalls
        = c1State.creditCalls + 1 ∧
      rewardStatusOf (RewardService.creditRewardN (List.replicate 2 true) c1State 1).rewards 1
        = some RewardStatus.credited) :=
  ⟨rfl, rfl, (credit_reward_idempotent c1State 1 c1Reward rfl rfl 2 (by decide)).1⟩

/-- C4: the create-referral duplicate guard rejects with a conflict, touching
nothing, whenever any existing referral of the referee matches the identity
and role of the owner of whichever code was presented; and the UNIQUE KEY of
the referrals table preserves the at-most-one-referral-per-tuple invariant
across every insert it lets through. -/
theorem create_referral_uniqueness :
    (∀ (st : ControllerState) (req : CreateReferralRequest) (code : ReferralCode) (ex : Referral),
      ReferralCode.validateCode st.codes st.now req.referral_code = some code →
      code.owner_id ≠ req.referee_id →
      ex ∈ st.referrals → ex.referee_id = req.referee_id →
      ex.referrer_id = code.owner_id → ex.referrer_type = code.owner_type →
      ReferralController.createReferral st req = (st, CreateReferralResult.duplicateReferral)) ∧
    (∀ (store : List Referral) (row : Referral) (store2 : List Referral),
      AtMostOneReferralPerTuple store → Referral.insertRow store row = some store2 →
      AtMostOneReferralPerTuple store2) := by
  constructor
  · intro st req code ex hvc hne hmem hree hrid hrt
    unfold ReferralController.createReferral
    rw [hvc]
    simp only []
    have hbeq : (code.owner_id == req.referee_id) = false := by simp [hne]
    rw [hbeq]
    have hexist : ((Referral.findByReferee st.referrals req.referee_id).find?
        (fun r => r.referrer_id == code.owner_id &&
          r.referrer_type == code.owner_type)).isSome := by
      rw [List.find?_isSome]
      refine ⟨ex, ?_, ?_⟩
      · unfold Referral.findByReferee
        rw [List.mem_filter]
        exact ⟨hmem, by simp [hree]⟩
      · simp [hrid, hrt]
    obtain ⟨y, hy⟩ := Option.isSome_iff_exists.mp hexist
    rw [hy]
    rfl
  · intro store row store2 hinv hins
    unfold Referral.insertRow at hins
    split at hins
    · cases hins
    next hany =>
      cases hins
      intro rid reeId rt ret
      unfold referralTupleCount
      rw [List.countP_cons]
      by_cases hrow : (row.referrer_id == rid && row.referee_id == reeId &&
          row.referrer_type == rt && row.referee_type == ret) = true
      · have h0 : store.countP (fun r => r.referrer_id == rid && r.referee_id == reeId &&
            r.referrer_type == rt && r.referee_type == ret) = 0 := by
          rw [List.countP_eq_zero]
          intro a hamem hpa
          apply hany
          rw [List.any_eq_true]
          simp only [Bool.and_eq_true, beq_iff_eq] at hpa hrow
          refine ⟨a, hamem, ?_⟩
          simp [referralKeyMatches, hpa.1.1.1, hpa.1.1.2, hpa.1.2, hpa.2,
            hrow.1.1.1, hrow.1.1.2, hrow.1.2, hrow.2]
        rw [h0]
        simp [hrow]
      · have hif : (if (row.referrer_id == rid && row.referee_id == reeId &&
            row.referrer_type == rt && row.referee_type == ret) = true
            then 1 else 0) = 0 := by
          simp [hrow]
        rw [hif]
        have := hinv rid reeId rt ret
        unfold referralTupleCount at this
        omega

/-- Witness: the C4 theorem applied at the store where cust-1 already refers
cust-2 and cust-2 presents a second code of cust-1. -/
theorem create_referral_uniqueness_witness :
    ReferralCode.validateCode c4State.codes c4State.now c4Request.referral_code = some c4Code ∧
    c4Existing ∈ c4State.referrals ∧
    ReferralController.createReferral c4State c4Request
      = (c4State, CreateReferralResult.duplicateReferral) :=
  ⟨rfl, by decide,
    create_referral_uniqueness.1 c4State c4Request c4Code c4Existing rfl (by decide)
      (by decide) rfl rfl rfl⟩

/-- The dedup scan of the milestone engine sees the whole reward history of
the user whenever that history holds at most 1000 rewards (LIMIT 1000,
OFFSET 0). -/
theorem findByUser_all (store : List Reward) (userId : String)
    (h : (store.filter (fun r => r.user_id == userId)).length ≤ 1000) :
    Reward.findByUser store userId none 1000 0
      = store.filter (fun r => r.user_id == userId) := by
  unfold Reward.findByUser
  simp only [List.drop_zero]
  have hpred : (fun r : Reward => r.user_id == userId &&
      match (none : Option RewardStatus) with
      | none => true
      | some s => r.status == s) = (fun r : Reward => r.user_id == userId) := by
    funext r
    simp
  rw [hpred]
  exact List.take_of_length_le h

/-- The pending-to-credited compare-and-set changes statuses only, so it
never changes which rows count as milestone rewards of a user. -/
theorem milestoneRewardCount_creditCAS (store : List Reward) (id : Nat) (u : String) (m : Nat) :
    milestoneRewardCount (Reward.creditCAS store id).1 u m = milestoneRewardCount store u m := by
  unfold milestoneRewardCount Reward.creditCAS
  rw [List.countP_map]
  apply List.countP_congr
  intro x _
  by_cases hx : (x.id == id && x.status == RewardStatus.pending) = true <;>
    simp [Function.comp, hx, isMilestoneRewardFor]

/-- The service creditReward never changes which rows count as milestone
rewards of a user (it only flips one status, or nothing). -/
theorem milestoneRewardCount_creditReward (es : Bool) (s : SvcState) (id : Nat)
    (u : String) (m : Nat) :
    milestoneRewardCount (RewardService.creditReward es s id).1.rewards u m
      = milestoneRewardCount s.rewards u m := by
  unfold RewardService.creditReward
  cases hf : Reward.findById s.rewards id with
  | none => rfl
  | some r =>
    simp only []
    by_cases hp : r.status = RewardStatus.pending
    · rw [if_pos hp]
      cases es
      · rfl
      · exact milestoneRewardCount_creditCAS s.rewards id u m
    · rw [if_neg hp]

set_option maxRecDepth 100000 in
/-- C3 counterexample, evaluated at the explicit input: user u holds 1001
rewards, the 1000 most recent of which are plain referral bonuses, and the
oldest of which is the existing milestone-5 reward; processing milestone 5
again scans only the 1000 most recent rewards, misses the existing one, and
creates a second milestone-5 reward for the same user. -/
theorem milestone_dedup_misses_buried_reward :
    milestoneRewardCount c3State.rewards "u" 5 = 1 ∧
    milestoneRewardCount
        (RewardService.processMilestoneReward true c3State "u" Role.customer 5).1.rewards
        "u" 5 = 2 := by
  constructor
  · rfl
  · rfl

/-- C3 as amended: whenever the user holds at most 1000 rewards (so the
dedup scan sees the whole history), processing a milestone leaves exactly
max 1 k milestone rewards tagged with that milestone, where k is the number
already present — an existing reward is found and nothing is created, and an
absent reward is created exactly once. -/
theorem milestone_granted_at_most_once (es : Bool) (st : SvcState) (userId : String)
    (ut : Role) (m : Nat) (hm : m ∈ milestoneThresholds)
    (hlen : (st.rewards.filter (fun r => r.user_id == userId)).length ≤ 1000) :
    milestoneRewardCount
        (RewardService.processMilestoneReward es st userId ut m).1.rewards userId m
      = max 1 (milestoneRewardCount st.rewards userId m) := by
  obtain ⟨amt, hamt⟩ : ∃ a, milestoneAmounts m = some a := by
    simp only [milestoneThresholds, List.mem_cons, List.mem_singleton,
      List.not_mem_nil, or_false] at hm
    rcases hm with h | h | h | h | h <;> subst h <;> exact ⟨_, rfl⟩
  unfold RewardService.processMilestoneReward
  rw [hamt]
  simp only []
  rw [findByUser_all st.rewards userId hlen]
  by_cases hany : ((st.rewards.filter (fun r => r.user_id == userId)).any
      (isMilestoneRewardFor m)) = true
  · rw [if_pos hany]
    have hpos : 0 < milestoneRewardCount st.rewards userId m := by
      rw [List.any_eq_true] at hany
      obtain ⟨x, hxmem, hxp⟩ := hany
      rw [List.mem_filter] at hxmem
      unfold milestoneRewardCount
      rw [List.countP_pos_iff]
      exact ⟨x, hxmem.1, by simp [hxmem.2, hxp]⟩
    exact (Nat.max_eq_right hpos).symm
  · rw [if_neg hany]
    simp only []
    have h0 : milestoneRewardCount st.rewards userId m = 0 := by
      unfold milestoneRewardCount
      rw [List.countP_eq_zero]
      intro a hamem hpa
      apply hany
      rw [List.any_eq_true]
      rw [Bool.and_eq_true] at hpa
      exact ⟨a, List.mem_filter.mpr ⟨hamem, hpa.1⟩, hpa.2⟩
    rw [milestoneRewardCount_creditReward]
    unfold milestoneRewardCount at h0 ⊢
    rw [List.countP_cons, h0]
    have hprow : ((Reward.createRow st.now st.nextRewardId
        { user_id := userId
          user_type := ut
          reward_type := RewardType.milestone_bonus
          amount := amt
          source_type := SourceType.milestone
          metadata := some { milestone := some m } }).user_id == userId &&
        isMilestoneRewardFor m (Reward.createRow st.now st.nextRewardId
        { user_id := userId
          user_type := ut
          reward_type := RewardType.milestone_bonus
          amount := amt
          source_type := SourceType.milestone
          metadata := some { milestone := some m } })) = true := by
      simp [Reward.createRow, isMilestoneRewardFor]
    rw [hprow]
    rfl

/-- Witness: the amended C3 theorem applied at the empty store — one
milestone-5 reward is created, matching max 1 0. -/
theorem milestone_granted_at_most_once_witness :
    5 ∈ milestoneThresholds ∧
    (c3SmallState.rewards.filter (fun r => r.user_id == "u")).length ≤ 1000 ∧
    milestoneRewardCount
        (RewardService.processMilestoneReward true c3SmallState "u" Role.customer 5).1.rewards
        "u" 5
      = max 1 (milestoneRewardCount c3SmallState.rewards "u" 5) :=
  ⟨by decide, by decide,
    milestone_granted_at_most_once true c3SmallState "u" Role.customer 5 (by decide) (by decide)⟩

end RefSvc
